import Mathlib

set_option maxRecDepth 100000

/-!
Verification of the TLS certificate-lifecycle logic of `synapse/config/tls.py`
(`TlsConfig`): certificate validity checking (`is_disk_cert_valid`), fingerprint
reconciliation (`read_certificate_from_disk`), and self-signed certificate/key
generation (`generate_files`).

The filesystem is modelled as an association list from paths to file data; PEM
serialization of certificates and keys is modelled symbolically (an external
library concern), while the SHA-256 digest and the unpadded base64 encoding used
for fingerprints are implemented concretely.  Machine integers do not occur: all
arithmetic in the source is unbounded Python integer / datetime arithmetic,
modelled with Nat / Int.
-/

namespace Tls

/-! ## SHA-256 (hashlib.sha256), over lists of bytes (Nat < 256) -/

/-- Right rotation of a 32-bit word. -/
def rotr32 (n x : Nat) : Nat := ((x >>> n) ||| (x <<< (32 - n))) % 4294967296

/-- SHA-256 small sigma 0. -/
def schedSig0 (x : Nat) : Nat := (rotr32 7 x) ^^^ (rotr32 18 x) ^^^ (x >>> 3)

/-- SHA-256 small sigma 1. -/
def schedSig1 (x : Nat) : Nat := (rotr32 17 x) ^^^ (rotr32 19 x) ^^^ (x >>> 10)

/-- SHA-256 big sigma 0. -/
def roundSig0 (x : Nat) : Nat := (rotr32 2 x) ^^^ (rotr32 13 x) ^^^ (rotr32 22 x)

/-- SHA-256 big sigma 1. -/
def roundSig1 (x : Nat) : Nat := (rotr32 6 x) ^^^ (rotr32 11 x) ^^^ (rotr32 25 x)

/-- SHA-256 choice function. -/
def chf (x y z : Nat) : Nat := (x &&& y) ^^^ ((x ^^^ 4294967295) &&& z)

/-- SHA-256 majority function. -/
def majf (x y z : Nat) : Nat := (x &&& y) ^^^ (x &&& z) ^^^ (y &&& z)

/-- The 64 SHA-256 round constants, written in decimal. -/
def sha256K : List Nat :=
  [1116352408, 1899447441, 3049323471, 3921009573, 961987163,
   1508970993, 2453635748, 2870763221, 3624381080, 310598401,
   607225278, 1426881987, 1925078388, 2162078206, 2614888103,
   3248222580, 3835390401, 4022224774, 264347078, 604807628,
   770255983, 1249150122, 1555081692, 1996064986, 2554220882,
   2821834349, 2952996808, 3210313671, 3336571891, 3584528711,
   113926993, 338241895, 666307205, 773529912, 1294757372,
   1396182291, 1695183700, 1986661051, 2177026350, 2456956037,
   2730485921, 2820302411, 3259730800, 3345764771, 3516065817,
   3600352804, 4094571909, 275423344, 430227734, 506948616,
   659060556, 883997877, 958139571, 1322822218, 1537002063,
   1747873779, 1955562222, 2024104815, 2227730452, 2361852424,
   2428436474, 2756734187, 3204031479, 3329325298]

/-- The SHA-256 initial hash value, written in decimal. -/
def sha256H0 : List Nat :=
  [1779033703, 3144134277, 1013904242, 2773480762,
   1359893119, 2600822924, 528734635, 1541459225]

/-- Big-endian byte serialization of a value into the given number of bytes. -/
def toBytesBE (nbytes v : Nat) : List Nat :=
  (List.range nbytes).map (fun i => (v >>> (8 * (nbytes - 1 - i))) % 256)

/-- Group a byte list into big-endian 32-bit words (four bytes per word). -/
def bytesToWords : List Nat → List Nat
  | a :: b :: c :: d :: rest =>
      (a * 16777216 + b * 65536 + c * 256 + d) :: bytesToWords rest
  | _ => []

/-- SHA-256 message padding: append 0x80, zero bytes up to 56 mod 64, then the
bit length as eight big-endian bytes. -/
def sha256pad (msg : List Nat) : List Nat :=
  msg ++ [128] ++ List.replicate ((119 - msg.length % 64) % 64) 0
      ++ toBytesBE 8 (msg.length * 8)

/-- Split a word list into chunks of sixteen (the padded message is always a
whole number of 16-word blocks). -/
def chunk16 : List Nat → List (List Nat)
  | [] => []
  | w0 :: w1 :: w2 :: w3 :: w4 :: w5 :: w6 :: w7 ::
    w8 :: w9 :: w10 :: w11 :: w12 :: w13 :: w14 :: w15 :: rest =>
      [w0, w1, w2, w3, w4, w5, w6, w7, w8, w9, w10, w11, w12, w13, w14, w15]
        :: chunk16 rest
  | l => [l]

/-- Extend a 16-word block to the 64-word SHA-256 message schedule. -/
def sha256schedule (block : List Nat) : Array Nat :=
  (List.range 48).foldl
    (fun w i =>
      let t := i + 16
      w.push ((schedSig1 (w.getD (t - 2) 0) + w.getD (t - 7) 0
        + schedSig0 (w.getD (t - 15) 0) + w.getD (t - 16) 0) % 4294967296))
    block.toArray

/-- One SHA-256 compression step on the eight-word working state. -/
def sha256round (k w : Nat) :
    Nat × Nat × Nat × Nat × Nat × Nat × Nat × Nat →
    Nat × Nat × Nat × Nat × Nat × Nat × Nat × Nat :=
  fun (a, b, c, d, e, f, g, h) =>
    let t1 := (h + roundSig1 e + chf e f g + k + w) % 4294967296
    let t2 := (roundSig0 a + majf a b c) % 4294967296
    ((t1 + t2) % 4294967296, a, b, c, (d + t1) % 4294967296, e, f, g)

/-- SHA-256 compression of one 16-word block into the chaining state. -/
def sha256compress (hs : List Nat) (block : List Nat) : List Nat :=
  let w := sha256schedule block
  let init := (hs.getD 0 0, hs.getD 1 0, hs.getD 2 0, hs.getD 3 0,
               hs.getD 4 0, hs.getD 5 0, hs.getD 6 0, hs.getD 7 0)
  let st := (List.range 64).foldl
    (fun s t => sha256round (sha256K.getD t 0) (w.getD t 0) s) init
  match st with
  | (a, b, c, d, e, f, g, h) =>
    [(hs.getD 0 0 + a) % 4294967296, (hs.getD 1 0 + b) % 4294967296,
     (hs.getD 2 0 + c) % 4294967296, (hs.getD 3 0 + d) % 4294967296,
     (hs.getD 4 0 + e) % 4294967296, (hs.getD 5 0 + f) % 4294967296,
     (hs.getD 6 0 + g) % 4294967296, (hs.getD 7 0 + h) % 4294967296]

/-- SHA-256 digest of a byte list, as a list of 32 bytes
(hashlib.sha256(data).digest()). -/
def sha256digest (msg : List Nat) : List Nat :=
  let blocks := chunk16 (bytesToWords (sha256pad msg))
  (blocks.foldl sha256compress sha256H0).map (toBytesBE 4) |>.flatten

/-! ## Unpadded base64 (unpaddedbase64.encode_base64) -/

/-- The standard base64 alphabet. -/
def base64Alphabet : List Char :=
  "ABCDEFGHIJKLMNOPQRSTUVWXYZabcdefghijklmnopqrstuvwxyz0123456789+/".toList

/-- The base64 character for a 6-bit value. -/
def b64c (n : Nat) : Char := base64Alphabet.getD n 'A'

/-- Unpadded base64 encoding of a byte list (unpaddedbase64.encode_base64:
standard base64 with the trailing "=" padding removed). -/
def encode_base64 : List Nat → String
  | [] => ""
  | [a] => String.mk [b64c (a >>> 2), b64c ((a % 4) <<< 4)]
  | [a, b] => String.mk [b64c (a >>> 2), b64c (((a % 4) <<< 4) + (b >>> 4)),
      b64c ((b % 16) <<< 2)]
  | a :: b :: c :: rest =>
      String.mk [b64c (a >>> 2), b64c (((a % 4) <<< 4) + (b >>> 4)),
        b64c (((b % 16) <<< 2) + (c >>> 6)), b64c (c % 64)]
      ++ encode_base64 rest

/-! ## The pyOpenSSL object model (OpenSSL.crypto), symbolically

X.509 names, keys and certificates are modelled as records; the imperative
setter calls of the source translate to record fields.  Key generation is
parameterized by an entropy value standing for the library's randomness. -/

/-- An X.509 name (crypto.X509Name); the source only ever sets the CN
component (subject.CN = config["server_name"]). -/
structure X509Name where
  CN : String
deriving DecidableEq, Repr

/-- The public half of an asymmetric key: determined by the private key's
type, size and secret material. -/
structure PubKey where
  keyType : Nat
  bits : Nat
  material : Nat
deriving DecidableEq, Repr

/-- A private key (crypto.PKey): key type, modulus size in bits and the
entropy-derived secret material. -/
structure PKey where
  keyType : Nat
  bits : Nat
  material : Nat
deriving DecidableEq, Repr

/-- crypto.TYPE_RSA (= EVP_PKEY_RSA = 6). -/
def TYPE_RSA : Nat := 6

/-- The public half of a private key. -/
def PKey.publicKey (k : PKey) : PubKey := ⟨k.keyType, k.bits, k.material⟩

/-- crypto.PKey().generate_key(ktype, bits): a fresh key whose secret material
comes from the given entropy. -/
def generate_key (ktype bits entropy : Nat) : PKey := ⟨ktype, bits, entropy⟩

/-- An X.509 certificate (crypto.X509): subject, issuer, serial number,
validity interval (seconds since epoch, UTC), embedded public key, and the
signature (the public key of the signing key together with the digest
algorithm name). -/
structure X509 where
  subject : X509Name
  issuer : X509Name
  serialNumber : Nat
  notBefore : Int
  notAfter : Int
  pubkey : Option PubKey
  signature : Option (PubKey × String)
deriving DecidableEq, Repr

/-! ## Serialized file data and the filesystem

PEM serialization is modelled symbolically: crypto.load_certificate /
load_privatekey succeed exactly on the output of the corresponding dump
function; any other content is a parse failure, and a file whose read itself
raises is modelled by the `unreadable` marker. -/

/-- The content of a file on disk. -/
inductive FileData where
  | pemCert (cert : X509)
  | pemKey (key : PKey)
  | invalid (raw : String)
  | unreadable
deriving DecidableEq, Repr

/-- crypto.dump_certificate(FILETYPE_PEM, cert). -/
def dump_certificate_PEM (c : X509) : FileData := .pemCert c

/-- crypto.dump_privatekey(FILETYPE_PEM, key). -/
def dump_privatekey_PEM (k : PKey) : FileData := .pemKey k

/-- crypto.load_certificate(FILETYPE_PEM, data): succeeds exactly on
PEM-serialized certificates. -/
def load_certificate (d : FileData) : Option X509 :=
  match d with
  | .pemCert c => some c
  | _ => none

/-- crypto.load_privatekey(FILETYPE_PEM, data): succeeds exactly on
PEM-serialized private keys. -/
def load_privatekey (d : FileData) : Option PKey :=
  match d with
  | .pemKey k => some k
  | _ => none

/-- Big-endian bytes of a length-prefixed string (helper for the DER model). -/
def strBytes (s : String) : List Nat :=
  toBytesBE 8 s.length ++ s.toList.map Char.toNat

/-- Bytes of a signed integer (helper for the DER model). -/
def intBytes (i : Int) : List Nat :=
  (if i < 0 then [1] else [0]) ++ toBytesBE 8 i.natAbs

/-- Bytes of a public key (helper for the DER model). -/
def pubKeyBytes (p : PubKey) : List Nat :=
  toBytesBE 8 p.keyType ++ toBytesBE 8 p.bits ++ toBytesBE 8 p.material

/-- crypto.dump_certificate(FILETYPE_ASN1, cert): the DER (binary ASN.1)
encoding of the certificate, modelled as a concrete byte serialization of the
certificate's fields (the exact ASN.1 framing is an external library concern;
what matters is that it is a deterministic byte encoding of the
certificate). -/
def dump_certificate_ASN1 (c : X509) : List Nat :=
  strBytes c.subject.CN ++ strBytes c.issuer.CN
    ++ toBytesBE 8 c.serialNumber ++ intBytes c.notBefore ++ intBytes c.notAfter
    ++ (match c.pubkey with
        | none => [0]
        | some p => [1] ++ pubKeyBytes p)
    ++ (match c.signature with
        | none => [0]
        | some (p, alg) => [1] ++ pubKeyBytes p ++ strBytes alg)

/-- The filesystem: an association list from paths to file contents, newest
binding first. -/
def FS := List (String × FileData)

/-- Look up the content of a file; none when the path does not exist. -/
def lookupFile (fs : FS) (path : String) : Option FileData :=
  match fs with
  | [] => none
  | (p, d) :: rest => if p = path then some d else lookupFile rest path

/-- Write (create) a file at a path. -/
def writeFile (fs : FS) (path : String) (d : FileData) : FS := (path, d) :: fs

/-- Modelled from the spec: Config.path_exists (synapse.config._base, not in
src/) is an os.path.exists check on the given path. -/
def path_exists (fs : FS) (path : String) : Bool := (lookupFile fs path).isSome

/-! ## Errors

The exceptions the source can raise, as an error type for Except:
failure to read an existing file, failure to parse file content
(crypto load errors), the ValueError for a disallowed self-signed
certificate (the spec's TrustPolicyViolation), and a missing required file
(the spec's NotFoundError, raised by Config.read_file). -/

/-- The error outcomes of the modelled operations. -/
inductive TlsError where
  | notFoundError
  | readError
  | parseError
  | selfSignedNotPermitted
deriving DecidableEq, Repr

/-! ## TlsConfig.is_disk_cert_valid -/

/-- TlsConfig.is_disk_cert_valid (tls.py lines 59-99): returns none when the
certificate file does not exist; otherwise reads the file (a read failure is
logged and re-raised), parses it (a parse failure is logged and re-raised),
raises ValueError when self-signed certificates are not allowed and the
certificate's subject equals its issuer, and otherwise returns the days
remaining until notAfter: the timedelta days field of expires_on - now, i.e.
floor division of the difference in seconds by 86400.  `now` stands for
datetime.utcnow() in seconds since epoch. -/
def is_disk_cert_valid (fs : FS) (tls_certificate_file : String)
    (allow_self_signed : Bool) (now : Int) : Except TlsError (Option Int) :=
  match lookupFile fs tls_certificate_file with
  | none => .ok none
  | some .unreadable => .error .readError
  | some cert_pem =>
    match load_certificate cert_pem with
    | none => .error .parseError
    | some tls_certificate =>
      if allow_self_signed = false ∧
          tls_certificate.subject = tls_certificate.issuer then
        .error .selfSignedNotPermitted
      else
        .ok (some ((tls_certificate.notAfter - now).fdiv 86400))

/-! ## TlsConfig.read_certificate_from_disk and the fingerprint step -/

/-- A fingerprint entry: the dict `{"sha256": <unpadded-base64 digest>}`. -/
structure FingerprintEntry where
  sha256 : String
deriving DecidableEq, Repr

/-- The SHA-256 fingerprint of a certificate as computed in
read_certificate_from_disk (tls.py lines 113-117): the unpadded base64
encoding of the SHA-256 digest of the certificate's DER encoding. -/
def certSha256Fingerprint (cert : X509) : String :=
  encode_base64 (sha256digest (dump_certificate_ASN1 cert))

/-- The fingerprint-reconciliation step of read_certificate_from_disk
(tls.py lines 110-120): starting from the fingerprint list, append the
certificate's own fingerprint entry unless some entry already carries that
sha256 value. -/
def reconcile (tls_fingerprints : List FingerprintEntry) (cert : X509) :
    List FingerprintEntry :=
  let sha256_fingerprint := certSha256Fingerprint cert
  if sha256_fingerprint ∈ tls_fingerprints.map (fun f => f.sha256) then
    tls_fingerprints
  else
    tls_fingerprints ++ [⟨sha256_fingerprint⟩]

/-- Modelled from the spec: Config.read_file (synapse.config._base, not in
src/) reads the file at the path, failing when it does not exist (the spec's
NotFoundError) or cannot be read. -/
def read_file (fs : FS) (path : String) : Except TlsError FileData :=
  match lookupFile fs path with
  | none => .error .notFoundError
  | some .unreadable => .error .readError
  | some d => .ok d

/-- TlsConfig.read_tls_certificate (tls.py lines 191-193): read the file and
parse it as a PEM certificate. -/
def read_tls_certificate (fs : FS) (cert_path : String) :
    Except TlsError X509 := do
  let cert_pem ← read_file fs cert_path
  match load_certificate cert_pem with
  | none => .error .parseError
  | some c => .ok c

/-- TlsConfig.read_tls_private_key (tls.py lines 195-197): read the file and
parse it as a PEM private key. -/
def read_tls_private_key (fs : FS) (private_key_path : String) :
    Except TlsError PKey := do
  let private_key_pem ← read_file fs private_key_path
  match load_privatekey private_key_pem with
  | none => .error .parseError
  | some k => .ok k

/-- The mutable state of a TlsConfig instance, as set up by read_config:
the originally configured fingerprint list, the published fingerprint list,
the no_tls flag, the two file paths, and the loaded certificate and key. -/
structure TlsConfigState where
  original_tls_fingerprints : List FingerprintEntry
  tls_fingerprints : List FingerprintEntry
  no_tls : Bool
  tls_certificate_file : String
  tls_private_key_file : String
  tls_certificate : Option X509
  tls_private_key : Option PKey
deriving DecidableEq, Repr

/-- TlsConfig.read_certificate_from_disk (tls.py lines 101-120): load the
certificate (and, unless no_tls, the private key), rebuild tls_fingerprints
from the original configured list, and append the loaded certificate's own
fingerprint if no entry already carries it. -/
def read_certificate_from_disk (fs : FS) (st : TlsConfigState) :
    Except TlsError TlsConfigState := do
  let tls_certificate ← read_tls_certificate fs st.tls_certificate_file
  let tls_private_key ←
    if st.no_tls then pure st.tls_private_key
    else do pure (some (← read_tls_private_key fs st.tls_private_key_file))
  pure { st with
    tls_certificate := some tls_certificate
    tls_private_key := tls_private_key
    tls_fingerprints :=
      reconcile st.original_tls_fingerprints tls_certificate }

/-- A sequence of read_certificate_from_disk calls (reloads), each against a
possibly different on-disk state, threaded through the config state. -/
def reloadSeq (st : TlsConfigState) : List FS → Except TlsError TlsConfigState
  | [] => .ok st
  | fs :: rest => do reloadSeq (← read_certificate_from_disk fs st) rest

/-! ## TlsConfig.generate_files -/

/-- TlsConfig.generate_files (tls.py lines 199-232): if the private-key path
does not exist, generate a fresh 2048-bit RSA key and write it PEM-encoded
there; otherwise read and parse the existing key.  Then, if the certificate
path does not exist, build a self-signed certificate — subject CN set to the
configured server name, serial number 1000, notBefore now, notAfter now plus
ten 365-day years, issuer set to the subject, public key set from the private
key, signed with that key using SHA-256 — and write it PEM-encoded there.
`entropy` stands for the randomness consumed by generate_key, `now` for the
generation time in seconds since epoch. -/
def generate_files (fs : FS)
    (tls_certificate_path tls_private_key_path server_name : String)
    (entropy : Nat) (now : Int) : Except TlsError FS :=
  let keyStep : Except TlsError (FS × PKey) :=
    if path_exists fs tls_private_key_path = false then
      let tls_private_key := generate_key TYPE_RSA 2048 entropy
      .ok (writeFile fs tls_private_key_path
            (dump_privatekey_PEM tls_private_key), tls_private_key)
    else
      match lookupFile fs tls_private_key_path with
      | none => .error .notFoundError
      | some .unreadable => .error .readError
      | some d =>
        match load_privatekey d with
        | none => .error .parseError
        | some k => .ok (fs, k)
  match keyStep with
  | .error e => .error e
  | .ok (fs1, tls_private_key) =>
    if path_exists fs1 tls_certificate_path = false then
      let cert : X509 :=
        { subject := { CN := server_name }
          serialNumber := 1000
          notBefore := now
          notAfter := now + 10 * 365 * 24 * 60 * 60
          issuer := { CN := server_name }
          pubkey := some tls_private_key.publicKey
          signature := some (tls_private_key.publicKey, "sha256") }
      .ok (writeFile fs1 tls_certificate_path (dump_certificate_PEM cert))
    else
      .ok fs1

/-! ## Helper lemmas -/

theorem reconcile_of_mem (l : List FingerprintEntry) (cert : X509)
    (h : certSha256Fingerprint cert ∈ l.map (fun f => f.sha256)) :
    reconcile l cert = l := by
  simp [reconcile, h]

theorem reconcile_of_not_mem (l : List FingerprintEntry) (cert : X509)
    (h : certSha256Fingerprint cert ∉ l.map (fun f => f.sha256)) :
    reconcile l cert = l ++ [⟨certSha256Fingerprint cert⟩] := by
  simp [reconcile, h]

theorem mem_reconcile (l : List FingerprintEntry) (cert : X509) :
    certSha256Fingerprint cert ∈ (reconcile l cert).map (fun f => f.sha256) := by
  by_cases h : certSha256Fingerprint cert ∈ l.map (fun f => f.sha256) <;>
    simp [reconcile, h]

theorem lookupFile_writeFile_self (fs : FS) (p : String) (d : FileData) :
    lookupFile (writeFile fs p d) p = some d := by
  simp [lookupFile, writeFile]

theorem lookupFile_writeFile_ne (fs : FS) (p q : String) (d : FileData)
    (h : q ≠ p) : lookupFile (writeFile fs p d) q = lookupFile fs q := by
  simp only [lookupFile, writeFile]
  rw [if_neg (fun hpq => h hpq.symm)]

theorem generate_files_both_missing
    (fs : FS) (certPath keyPath server_name : String) (entropy : Nat)
    (now : Int)
    (hne : certPath ≠ keyPath)
    (hk : lookupFile fs keyPath = none) (hc : lookupFile fs certPath = none) :
    generate_files fs certPath keyPath server_name entropy now = .ok
      (writeFile
        (writeFile fs keyPath
          (dump_privatekey_PEM (generate_key TYPE_RSA 2048 entropy)))
        certPath
        (dump_certificate_PEM
          { subject := ⟨server_name⟩
            issuer := ⟨server_name⟩
            serialNumber := 1000
            notBefore := now
            notAfter := now + 10 * 365 * 24 * 60 * 60
            pubkey := some (generate_key TYPE_RSA 2048 entropy).publicKey
            signature :=
              some ((generate_key TYPE_RSA 2048 entropy).publicKey,
                "sha256") })) := by
  simp [generate_files, path_exists, hk, hc, lookupFile_writeFile_ne _ _ _ _ hne]

theorem generate_files_key_present
    (fs : FS) (certPath keyPath server_name : String) (entropy : Nat)
    (now : Int) (k : PKey)
    (hk : lookupFile fs keyPath = some (dump_privatekey_PEM k))
    (hc : lookupFile fs certPath = none) :
    generate_files fs certPath keyPath server_name entropy now = .ok
      (writeFile fs certPath
        (dump_certificate_PEM
          { subject := ⟨server_name⟩
            issuer := ⟨server_name⟩
            serialNumber := 1000
            notBefore := now
            notAfter := now + 10 * 365 * 24 * 60 * 60
            pubkey := some k.publicKey
            signature := some (k.publicKey, "sha256") })) := by
  simp [generate_files, path_exists, hk, hc, dump_privatekey_PEM,
    load_privatekey]

theorem generate_files_both_present
    (fs : FS) (certPath keyPath server_name : String) (entropy : Nat)
    (now : Int) (k : PKey) (d : FileData)
    (hk : lookupFile fs keyPath = some (dump_privatekey_PEM k))
    (hc : lookupFile fs certPath = some d) :
    generate_files fs certPath keyPath server_name entropy now = .ok fs := by
  simp [generate_files, path_exists, hk, hc, dump_privatekey_PEM,
    load_privatekey]

/-- Concrete certificate used by the witnesses below. -/
def wCert : X509 :=
  { subject := ⟨"example.com"⟩
    issuer := ⟨"example.com"⟩
    serialNumber := 1000
    notBefore := 0
    notAfter := 315360000
    pubkey := some ⟨6, 2048, 42⟩
    signature := some (⟨6, 2048, 42⟩, "sha256") }

/-! ## Claims -/

/-- C4: reconcile (the fingerprint step of read_certificate_from_disk) returns
the configured fingerprint list with the certificate's own fingerprint entry
appended at the end if and only if no existing entry already carries that
fingerprint value; the pre-existing entries and their order are preserved
unchanged, so the result always contains the certificate's fingerprint. -/
theorem reconcile_append_spec (l : List FingerprintEntry) (cert : X509) :
    (certSha256Fingerprint cert ∉ l.map (fun f => f.sha256) →
      reconcile l cert = l ++ [⟨certSha256Fingerprint cert⟩]) ∧
    (certSha256Fingerprint cert ∈ l.map (fun f => f.sha256) →
      reconcile l cert = l) ∧
    certSha256Fingerprint cert ∈ (reconcile l cert).map (fun f => f.sha256) :=
  ⟨reconcile_of_not_mem l cert, reconcile_of_mem l cert, mem_reconcile l cert⟩

theorem reconcile_append_spec_witness :
    reconcile [⟨"abc"⟩] wCert = [⟨"abc"⟩, ⟨certSha256Fingerprint wCert⟩] :=
  (reconcile_append_spec [⟨"abc"⟩] wCert).1 (by decide)

/-- C5: reconcile is idempotent: applying it a second time with the same
certificate inserts no duplicate entry and yields the same list. -/
theorem reconcile_idempotent (l : List FingerprintEntry) (cert : X509) :
    reconcile (reconcile l cert) cert = reconcile l cert :=
  reconcile_of_mem (reconcile l cert) cert (mem_reconcile l cert)

/-- C6: the certificate fingerprint is the unpadded-base64 encoding of the
SHA-256 digest of the certificate's DER encoding, and is deterministic: equal
DER bytes always yield the same base64 fingerprint string. -/
theorem fingerprint_formula_deterministic :
    (∀ cert : X509, certSha256Fingerprint cert
        = encode_base64 (sha256digest (dump_certificate_ASN1 cert))) ∧
    (∀ c1 c2 : X509, dump_certificate_ASN1 c1 = dump_certificate_ASN1 c2 →
      certSha256Fingerprint c1 = certSha256Fingerprint c2) :=
  ⟨fun _ => rfl, fun _ _ h => by simp [certSha256Fingerprint, h]⟩

theorem fingerprint_formula_deterministic_witness :
    certSha256Fingerprint wCert
        = encode_base64 (sha256digest (dump_certificate_ASN1 wCert)) ∧
    certSha256Fingerprint wCert = certSha256Fingerprint wCert :=
  ⟨fingerprint_formula_deterministic.1 wCert,
   fingerprint_formula_deterministic.2 wCert wCert rfl⟩

/-- C2: is_disk_cert_valid returns none (without error) when the certificate
file does not exist; otherwise the days remaining equal the integer floor of
(notAfter - now) in whole days, which may be negative and is never clamped:
a certificate whose notAfter is one day in the past yields -1, and one
expiring in 29.9 days (2583360 seconds) reports 29. -/
theorem is_disk_cert_valid_days_remaining
    (fs : FS) (path : String) (now : Int) (cert : X509)
    (h : lookupFile fs path = some (dump_certificate_PEM cert)) :
    is_disk_cert_valid fs path true now
      = .ok (some ((cert.notAfter - now).fdiv 86400)) ∧
    (∀ fs2 : FS, lookupFile fs2 path = none →
      is_disk_cert_valid fs2 path true now = .ok none) ∧
    (cert.notAfter = now - 86400 →
      is_disk_cert_valid fs path true now = .ok (some (-1))) ∧
    (cert.notAfter - now = 2583360 →
      is_disk_cert_valid fs path true now = .ok (some 29)) := by
  have hmain : is_disk_cert_valid fs path true now
      = .ok (some ((cert.notAfter - now).fdiv 86400)) := by
    simp [is_disk_cert_valid, h, dump_certificate_PEM, load_certificate]
  refine ⟨hmain, fun fs2 h2 => by simp [is_disk_cert_valid, h2], ?_, ?_⟩
  · intro he
    have h1 : cert.notAfter - now = -86400 := by rw [he]; ring
    rw [hmain, h1]
    rfl
  · intro he
    rw [hmain, he]
    rfl

/-- Concrete already-expired certificate used by the witnesses below
(notAfter one day before the epoch). -/
def wCertExpired : X509 :=
  { subject := ⟨"example.com"⟩
    issuer := ⟨"example.com"⟩
    serialNumber := 1000
    notBefore := -31536000
    notAfter := -86400
    pubkey := some ⟨6, 2048, 42⟩
    signature := some (⟨6, 2048, 42⟩, "sha256") }

theorem is_disk_cert_valid_days_remaining_witness :
    is_disk_cert_valid [("cert.pem", dump_certificate_PEM wCertExpired)]
        "cert.pem" true 0
      = .ok (some (-1)) :=
  (is_disk_cert_valid_days_remaining
    [("cert.pem", dump_certificate_PEM wCertExpired)] "cert.pem" 0 wCertExpired
    (by decide)).2.2.1 (by decide)

/-- C3: with allow_self_signed = false, is_disk_cert_valid raises the
self-signed trust violation instead of returning a value exactly when the
certificate's subject equals its issuer; when they differ, or when
allow_self_signed = true, that error is never raised and the call returns
normally. -/
theorem is_disk_cert_valid_trust_policy
    (fs : FS) (path : String) (now : Int) (cert : X509)
    (h : lookupFile fs path = some (dump_certificate_PEM cert)) :
    (is_disk_cert_valid fs path false now = .error .selfSignedNotPermitted
      ↔ cert.subject = cert.issuer) ∧
    (cert.subject ≠ cert.issuer →
      is_disk_cert_valid fs path false now
        = .ok (some ((cert.notAfter - now).fdiv 86400))) ∧
    is_disk_cert_valid fs path true now
      = .ok (some ((cert.notAfter - now).fdiv 86400)) ∧
    (∀ fs2 : FS, is_disk_cert_valid fs2 path true now
      ≠ .error .selfSignedNotPermitted) := by
  refine ⟨?_, ?_, ?_, ?_⟩
  · by_cases hss : cert.subject = cert.issuer <;>
      simp [is_disk_cert_valid, h, dump_certificate_PEM, load_certificate, hss]
  · intro hss
    simp [is_disk_cert_valid, h, dump_certificate_PEM, load_certificate, hss]
  · simp [is_disk_cert_valid, h, dump_certificate_PEM, load_certificate]
  · intro fs2
    cases h2 : lookupFile fs2 path with
    | none => simp [is_disk_cert_valid, h2]
    | some d => cases d <;> simp [is_disk_cert_valid, h2, load_certificate]

theorem is_disk_cert_valid_trust_policy_witness :
    is_disk_cert_valid [("cert.pem", dump_certificate_PEM wCert)]
        "cert.pem" false 0
      = .error .selfSignedNotPermitted :=
  ((is_disk_cert_valid_trust_policy _ "cert.pem" 0 wCert (by decide)).1).mpr rfl

/-- C9: if the certificate file exists but cannot be read, or exists but its
content cannot be parsed as a PEM certificate (including key material in place
of a certificate), is_disk_cert_valid propagates the error to the caller and
returns no validity value. -/
theorem is_disk_cert_valid_propagates_errors
    (fs : FS) (path : String) (allow : Bool) (now : Int) :
    (lookupFile fs path = some .unreadable →
      is_disk_cert_valid fs path allow now = .error .readError) ∧
    (∀ raw, lookupFile fs path = some (.invalid raw) →
      is_disk_cert_valid fs path allow now = .error .parseError) ∧
    (∀ k, lookupFile fs path = some (.pemKey k) →
      is_disk_cert_valid fs path allow now = .error .parseError) := by
  refine ⟨fun h => ?_, fun raw h => ?_, fun k h => ?_⟩ <;>
    simp [is_disk_cert_valid, h, load_certificate]

theorem is_disk_cert_valid_propagates_errors_witness :
    is_disk_cert_valid [("cert.pem", .unreadable)] "cert.pem" true 0
      = .error .readError :=
  (is_disk_cert_valid_propagates_errors _ "cert.pem" true 0).1 (by decide)

/-- C1: when the certificate path does not exist, the certificate written by
generate_files is self-signed (issuer equal to subject), has subject CN equal
to the configured server name, is signed with SHA-256 using the private key in
play, and is valid for ten 365-day years from generation time; and when the
key path does not exist, a fresh 2048-bit RSA key is generated and written
PEM-encoded to that path (and is the key the certificate is built from). -/
theorem generate_files_fresh_cert_and_key
    (fs : FS) (certPath keyPath server_name : String) (entropy : Nat)
    (now : Int) (fs' : FS)
    (hne : certPath ≠ keyPath)
    (hgen : generate_files fs certPath keyPath server_name entropy now
      = .ok fs')
    (hc : lookupFile fs certPath = none) :
    ∃ (cert : X509) (k : PKey),
      lookupFile fs' certPath = some (dump_certificate_PEM cert) ∧
      cert.issuer = cert.subject ∧
      cert.subject.CN = server_name ∧
      cert.pubkey = some k.publicKey ∧
      cert.signature = some (k.publicKey, "sha256") ∧
      cert.notBefore = now ∧
      cert.notAfter = now + 10 * 365 * 24 * 60 * 60 ∧
      (lookupFile fs keyPath = none →
        lookupFile fs' keyPath = some (dump_privatekey_PEM k) ∧
        k.keyType = TYPE_RSA ∧ k.bits = 2048) := by
  cases hk : lookupFile fs keyPath with
  | none =>
    rw [generate_files_both_missing fs certPath keyPath server_name entropy
      now hne hk hc] at hgen
    injection hgen with hfs
    subst hfs
    exact ⟨_, generate_key TYPE_RSA 2048 entropy,
      lookupFile_writeFile_self _ _ _, rfl, rfl, rfl, rfl, rfl, rfl,
      fun _ => ⟨by rw [lookupFile_writeFile_ne _ _ _ _ (Ne.symm hne),
        lookupFile_writeFile_self], rfl, rfl⟩⟩
  | some d0 =>
    cases d0 with
    | pemKey k =>
      rw [generate_files_key_present fs certPath keyPath server_name entropy
        now k hk hc] at hgen
      injection hgen with hfs
      subst hfs
      exact ⟨_, k, lookupFile_writeFile_self _ _ _, rfl, rfl, rfl, rfl, rfl,
        rfl, fun hnone => Option.noConfusion hnone⟩
    | unreadable => simp [generate_files, path_exists, hk] at hgen
    | invalid raw =>
      simp [generate_files, path_exists, hk, load_privatekey] at hgen
    | pemCert c =>
      simp [generate_files, path_exists, hk, load_privatekey] at hgen

/-- The filesystem produced by generate_files on an empty filesystem, used by
the witnesses below. -/
def wGenFs : FS :=
  writeFile
    (writeFile [] "server.key"
      (dump_privatekey_PEM (generate_key TYPE_RSA 2048 42)))
    "server.crt"
    (dump_certificate_PEM
      { subject := ⟨"example.com"⟩
        issuer := ⟨"example.com"⟩
        serialNumber := 1000
        notBefore := 0
        notAfter := 315360000
        pubkey := some (generate_key TYPE_RSA 2048 42).publicKey
        signature := some ((generate_key TYPE_RSA 2048 42).publicKey,
          "sha256") })

theorem generate_files_fresh_cert_and_key_witness :
    ∃ (cert : X509) (k : PKey),
      lookupFile wGenFs "server.crt" = some (dump_certificate_PEM cert) ∧
      cert.issuer = cert.subject ∧
      cert.subject.CN = "example.com" ∧
      cert.pubkey = some k.publicKey ∧
      cert.signature = some (k.publicKey, "sha256") ∧
      cert.notBefore = 0 ∧
      cert.notAfter = 0 + 10 * 365 * 24 * 60 * 60 ∧
      (lookupFile ([] : FS) "server.key" = none →
        lookupFile wGenFs "server.key"
          = some (dump_privatekey_PEM k) ∧
        k.keyType = TYPE_RSA ∧ k.bits = 2048) :=
  generate_files_fresh_cert_and_key [] "server.crt" "server.key" "example.com"
    42 0 wGenFs (by decide) rfl rfl

/-- C7: generate_files never overwrites an existing file: every path that
exists before the call holds the same content afterwards; generation and read
are mutually exclusive per path. -/
theorem generate_files_never_overwrites
    (fs : FS) (certPath keyPath server_name : String) (entropy : Nat)
    (now : Int) (fs' : FS)
    (hgen : generate_files fs certPath keyPath server_name entropy now
      = .ok fs') :
    ∀ p d, lookupFile fs p = some d → lookupFile fs' p = some d := by
  intro p d hpd
  cases hk : lookupFile fs keyPath with
  | none =>
    have hpk : p ≠ keyPath := by
      intro he; rw [he, hk] at hpd; cases hpd
    by_cases hcp : certPath = keyPath
    · subst hcp
      simp [generate_files, path_exists, hk, lookupFile_writeFile_self]
        at hgen
      subst hgen
      rw [lookupFile_writeFile_ne _ _ _ _ hpk]
      exact hpd
    · cases hc : lookupFile fs certPath with
      | none =>
        rw [generate_files_both_missing fs certPath keyPath server_name
          entropy now hcp hk hc] at hgen
        injection hgen with hfs
        subst hfs
        have hpc : p ≠ certPath := by
          intro he; rw [he, hc] at hpd; cases hpd
        rw [lookupFile_writeFile_ne _ _ _ _ hpc,
          lookupFile_writeFile_ne _ _ _ _ hpk]
        exact hpd
      | some dc =>
        simp [generate_files, path_exists, hk,
          lookupFile_writeFile_ne _ _ _ _ hcp, hc] at hgen
        subst hgen
        rw [lookupFile_writeFile_ne _ _ _ _ hpk]
        exact hpd
  | some d0 =>
    cases d0 with
    | pemKey k =>
      cases hc : lookupFile fs certPath with
      | none =>
        rw [generate_files_key_present fs certPath keyPath server_name
          entropy now k hk hc] at hgen
        injection hgen with hfs
        subst hfs
        have hpc : p ≠ certPath := by
          intro he; rw [he, hc] at hpd; cases hpd
        rw [lookupFile_writeFile_ne _ _ _ _ hpc]
        exact hpd
      | some dc =>
        rw [generate_files_both_present fs certPath keyPath server_name
          entropy now k dc hk hc] at hgen
        injection hgen with hfs
        subst hfs
        exact hpd
    | unreadable => simp [generate_files, path_exists, hk] at hgen
    | invalid raw =>
      simp [generate_files, path_exists, hk, load_privatekey] at hgen
    | pemCert c =>
      simp [generate_files, path_exists, hk, load_privatekey] at hgen

/-- Concrete filesystem with both files already present, used by the witness
below. -/
def wPresentFs : FS :=
  [("server.crt", dump_certificate_PEM wCert),
   ("server.key", dump_privatekey_PEM ⟨6, 2048, 7⟩)]

theorem generate_files_never_overwrites_witness :
    lookupFile wPresentFs "server.crt" = some (dump_certificate_PEM wCert) :=
  generate_files_never_overwrites wPresentFs "server.crt" "server.key"
    "example.com" 42 0 wPresentFs rfl "server.crt"
    (dump_certificate_PEM wCert) rfl

/-- C8: for a certificate/private-key pair produced together by
generate_files (both paths absent beforehand), the public key embedded in the
written certificate equals the public half of the written private key, and
the certificate is signed with that key. -/
theorem generate_files_pubkey_consistency
    (fs : FS) (certPath keyPath server_name : String) (entropy : Nat)
    (now : Int) (fs' : FS)
    (hne : certPath ≠ keyPath)
    (hgen : generate_files fs certPath keyPath server_name entropy now
      = .ok fs')
    (hk : lookupFile fs keyPath = none) (hc : lookupFile fs certPath = none) :
    ∃ (cert : X509) (key : PKey),
      lookupFile fs' certPath = some (dump_certificate_PEM cert) ∧
      lookupFile fs' keyPath = some (dump_privatekey_PEM key) ∧
      cert.pubkey = some key.publicKey ∧
      cert.signature = some (key.publicKey, "sha256") := by
  rw [generate_files_both_missing fs certPath keyPath server_name entropy now
    hne hk hc] at hgen
  injection hgen with hfs
  subst hfs
  exact ⟨_, generate_key TYPE_RSA 2048 entropy,
    lookupFile_writeFile_self _ _ _,
    by rw [lookupFile_writeFile_ne _ _ _ _ (Ne.symm hne),
      lookupFile_writeFile_self],
    rfl, rfl⟩

theorem generate_files_pubkey_consistency_witness :
    ∃ (cert : X509) (key : PKey),
      lookupFile wGenFs "server.crt" = some (dump_certificate_PEM cert) ∧
      lookupFile wGenFs "server.key" = some (dump_privatekey_PEM key) ∧
      cert.pubkey = some key.publicKey ∧
      cert.signature = some (key.publicKey, "sha256") :=
  generate_files_pubkey_consistency [] "server.crt" "server.key" "example.com"
    42 0 wGenFs (by decide) rfl rfl rfl

theorem except_bind_ok {ε α β : Type} (m : Except ε α) (f : α → Except ε β)
    (b : β) (h : (m >>= f) = .ok b) : ∃ a, m = .ok a ∧ f a = .ok b := by
  cases m with
  | error e =>
    simp only [Bind.bind, Except.bind] at h
    cases h
  | ok a =>
    exact ⟨a, rfl, h⟩

theorem read_certificate_from_disk_ok (fs : FS) (st st' : TlsConfigState)
    (h : read_certificate_from_disk fs st = .ok st') :
    st'.original_tls_fingerprints = st.original_tls_fingerprints ∧
    ∃ cert, st'.tls_certificate = some cert ∧
      st'.tls_fingerprints = reconcile st.original_tls_fingerprints cert := by
  unfold read_certificate_from_disk at h
  obtain ⟨cert, hcert, h⟩ := except_bind_ok _ _ _ h
  cases hnt : st.no_tls with
  | true =>
    simp only [hnt, if_true, Bind.bind, Except.bind, pure, Except.pure] at h
    injection h with h
    subst h
    exact ⟨rfl, cert, rfl, rfl⟩
  | false =>
    simp only [hnt, Bool.false_eq_true, if_false, Bind.bind, Except.bind,
      pure, Except.pure] at h
    cases hrk : read_tls_private_key fs st.tls_private_key_file with
    | error e => simp [hrk] at h
    | ok key =>
      simp only [hrk] at h
      injection h with h
      subst h
      exact ⟨rfl, cert, rfl, rfl⟩

/-- C10: read_certificate_from_disk always rebuilds tls_fingerprints from the
originally configured list before appending the current certificate's
fingerprint, so fingerprints of previously loaded certificates never
accumulate: after any nonempty sequence of reloads, the published list equals
the configured list plus at most one extra entry, the fingerprint of the
currently loaded certificate. -/
theorem reload_fingerprints_no_accumulation
    (fss : List FS) (st st' : TlsConfigState)
    (h : reloadSeq st fss = .ok st') (hne : fss ≠ []) :
    st'.original_tls_fingerprints = st.original_tls_fingerprints ∧
    ∃ cert : X509, st'.tls_certificate = some cert ∧
      st'.tls_fingerprints = reconcile st.original_tls_fingerprints cert ∧
      (st'.tls_fingerprints = st.original_tls_fingerprints ∨
        st'.tls_fingerprints
          = st.original_tls_fingerprints
              ++ [⟨certSha256Fingerprint cert⟩]) := by
  induction fss generalizing st with
  | nil => exact absurd rfl hne
  | cons fs rest ih =>
    unfold reloadSeq at h
    obtain ⟨st1, h1, h2⟩ := except_bind_ok _ _ _ h
    obtain ⟨ho1, cert1, hc1, hf1⟩ := read_certificate_from_disk_ok fs st st1 h1
    cases rest with
    | nil =>
      simp only [reloadSeq] at h2
      injection h2 with h2
      subst h2
      refine ⟨ho1, cert1, hc1, hf1, ?_⟩
      by_cases hm : certSha256Fingerprint cert1
          ∈ st.original_tls_fingerprints.map (fun f => f.sha256)
      · exact Or.inl (hf1.trans (reconcile_of_mem _ _ hm))
      · exact Or.inr (hf1.trans (reconcile_of_not_mem _ _ hm))
    | cons fs2 rest2 =>
      obtain ⟨ho, cert, hc, hf, hd⟩ := ih st1 h2 (by simp)
      rw [ho1] at ho hf hd
      exact ⟨ho, cert, hc, hf, hd⟩

/-- Concrete TlsConfig state used by the reload witness below. -/
def wState : TlsConfigState :=
  { original_tls_fingerprints := [⟨"abc"⟩]
    tls_fingerprints := [⟨"abc"⟩]
    no_tls := true
    tls_certificate_file := "cert.pem"
    tls_private_key_file := "key.pem"
    tls_certificate := none
    tls_private_key := none }

theorem reload_fingerprints_no_accumulation_witness :
    wState.original_tls_fingerprints = wState.original_tls_fingerprints ∧
    ∃ cert : X509,
      (some wCert : Option X509) = some cert ∧
      [(⟨"abc"⟩ : FingerprintEntry), ⟨certSha256Fingerprint wCert⟩]
        = reconcile wState.original_tls_fingerprints cert ∧
      (([(⟨"abc"⟩ : FingerprintEntry), ⟨certSha256Fingerprint wCert⟩]
          : List FingerprintEntry)
        = wState.original_tls_fingerprints ∨
       [(⟨"abc"⟩ : FingerprintEntry), ⟨certSha256Fingerprint wCert⟩]
        = wState.original_tls_fingerprints
            ++ [⟨certSha256Fingerprint cert⟩]) := by
  have h := reload_fingerprints_no_accumulation
    [[("cert.pem", dump_certificate_PEM wCert)]] wState
    { wState with
      tls_certificate := some wCert
      tls_fingerprints := [⟨"abc"⟩, ⟨certSha256Fingerprint wCert⟩] }
    rfl
    (by simp)
  exact h

end Tls
